import Mathlib

/-!
Shallow embedding of the pending-payment lifecycle of the QRIS top-up store
bot.  The repository ships three near-identical worker variants:

* `IndexJs`    — `src/index.js`: purchase flow keyed by provider trx id
  (`processSuccessfulPayment`, `handleCheckPayment`, `handleCancelPayment`,
  `handlePurchaseConfirm`, `loadKV`/`saveKV`).
* `DepositBot` — first half of `src/unnamed/part_000`: deposit flow keyed by
  user id (`createQrisAndConfirm`, `handleConfirmPayment`,
  `processDepositWithBonus`, `addTransaction` with a 50-entry cap,
  `loadDB`/`saveDB`).
* `StoreBot`   — second half of `src/unnamed/part_000`: purchase flow keyed
  by payment id (`handlePurchaseStart`, `handleCheckPayment`,
  `deliverProduct`, `addTransaction` with a 100-entry cap).

Key-value stores are modelled as total maps `String → Option α`; every
handler becomes a pure function from an explicit state (plus the provider
response, which the JS code obtains by `fetch`) to a new state and an
outcome constructor standing for the Telegram message the code sends.
Timestamps are naturals counting milliseconds.
-/

/-- A JavaScript primitive value, as far as the handlers inspect one:
only identity against specific literals and JS truthiness matter. -/
inductive JPrim
  | jnull
  | jbool (b : Bool)
  | jnum (n : Int)
  | jstr (s : String)
  deriving DecidableEq, Repr

/-- JS truthiness of a primitive (`null`, `false`, `0` and `""` are falsy). -/
def JPrim.truthy : JPrim → Bool
  | .jnull => false
  | .jbool b => b
  | .jnum n => !(n == 0)
  | .jstr s => !(s == "")

/-- Point update of a string-keyed store (`obj[k] = v` / `delete obj[k]`). -/
def setKey {α : Type} (m : String → Option α) (k : String) (v : Option α) :
    String → Option α :=
  fun x => if x = k then v else m x

/-- Point update of a string-keyed store of lists (`obj[k].push(...)` etc.). -/
def setList {α : Type} (m : String → List α) (k : String) (v : List α) :
    String → List α :=
  fun x => if x = k then v else m x

/-- Whether `pat` occurs at the head of `s` (character-wise). -/
def charsHasPre : List Char → List Char → Bool
  | [], _ => true
  | _ :: _, [] => false
  | a :: as, b :: bs => a == b && charsHasPre as bs

/-- Whether `pat` occurs anywhere inside `s` (character-wise). -/
def charsContains (pat : List Char) : List Char → Bool
  | [] => charsHasPre pat []
  | b :: bs => charsHasPre pat (b :: bs) || charsContains pat bs

/-- JavaScript `s.includes(pat)`. -/
def strIncludes (s pat : String) : Bool :=
  charsContains pat.toList s.toList

/-- JavaScript `s.toUpperCase()` over the character list (the provider
status strings are ASCII). -/
def upperChars : List Char → List Char
  | [] => []
  | c :: cs => c.toUpper :: upperChars cs

namespace IndexJs

/-- Result of the underlying `BOT_DB.get(key, 'json')` call in
`src/index.js`: it may throw, find nothing (`null`), or return a parsed
JSON value. -/
inductive KVGetResult
  | failure
  | missing
  | found (v : JPrim)
  deriving DecidableEq, Repr

/-- Result of the underlying `BOT_DB.put` call. -/
inductive KVPutResult
  | ok
  | failure
  deriving DecidableEq, Repr

/-- What `loadKV` can hand to a caller: the parsed stored value, or the
fresh empty object `{}` it substitutes on error / absence / falsy data. -/
inductive KVValue
  | emptyObj
  | value (v : JPrim)
  deriving DecidableEq, Repr

/-- `loadKV` from `src/index.js` lines 35–43. -/
def loadKV : KVGetResult → KVValue
  | .failure => .emptyObj
  | .missing => .emptyObj
  | .found v => if v.truthy then .value v else .emptyObj

/-- `saveKV` from `src/index.js` lines 44–52. -/
def saveKV : KVPutResult → Bool
  | .ok => true
  | .failure => false

/-- A product record in the `accounts` store (`{ title, description, price,
stock, list }`); presentation-only fields are omitted. -/
structure ProductA where
  price : Nat
  listA : List String
  stock : Nat
  deriving DecidableEq, Repr

/-- A record of the `pending_payments` store (`{ userId, productSku, qty,
amount, createdAt, expiresAt, status }`, keyed by trx id). -/
structure PendingA where
  userId : String
  productSku : String
  qty : Nat
  amount : Nat
  createdAt : Nat
  expiresAt : Option Nat
  status : String
  deriving DecidableEq, Repr

/-- A ledger entry pushed by `processSuccessfulPayment` (generated id,
timestamp and raw provider payload are opaque and omitted). -/
structure TxnA where
  txType : String
  amount : Nat
  qty : Nat
  items : List String
  deriving DecidableEq, Repr

/-- The durable state of the `src/index.js` worker: the three KV records the
purchase lifecycle touches. -/
structure StateA where
  accounts : String → Option ProductA
  pending : String → Option PendingA
  transactions : String → List TxnA

/-- Outcome of `processSuccessfulPayment` (`src/index.js` lines 596–665);
`noProduct` and `outOfStock` correspond to the failure messages sent to the
user before the record is marked `failed`. -/
inductive ProcResult
  | notFound
  | alreadyPaid
  | noProduct
  | outOfStock
  | fulfilled (items : List String)
  deriving DecidableEq, Repr

/-- `processSuccessfulPayment` from `src/index.js` lines 596–665: re-reads
the pending record, short-circuits when it is already `paid`, marks it
`failed` when the product is gone or stock does not cover `qty`, and
otherwise splices `qty` items off the product list, marks the record
`paid` and appends a `purchase` transaction. -/
def processSuccessfulPayment (s : StateA) (trxid : String) :
    StateA × ProcResult :=
  match s.pending trxid with
  | none => (s, .notFound)
  | some p =>
    if p.status = "paid" then (s, .alreadyPaid)
    else
      let failedPending := setKey s.pending trxid (some { p with status := "failed" })
      match s.accounts p.productSku with
      | none =>
        ({ s with pending := failedPending }, .noProduct)
      | some prod =>
        if prod.listA.length < p.qty then
          ({ s with pending := failedPending }, .outOfStock)
        else
          let itemsToSend := prod.listA.take p.qty
          let rest := prod.listA.drop p.qty
          let prod2 := { prod with listA := rest, stock := rest.length }
          let txn : TxnA :=
            { txType := "purchase", amount := p.amount, qty := p.qty,
              items := itemsToSend }
          let accounts2 := setKey s.accounts p.productSku (some prod2)
          let pending2 := setKey s.pending trxid (some { p with status := "paid" })
          let transactions2 :=
            setList s.transactions p.userId (s.transactions p.userId ++ [txn])
          ({ accounts := accounts2, pending := pending2,
             transactions := transactions2 }, .fulfilled itemsToSend)

/-- The parsed body of `verifyInvoiceStatus` (`verify.status` may be a
string or a boolean; `verify.paid` likewise a primitive). -/
structure VerifyResp where
  status : JPrim
  paid : JPrim
  deriving DecidableEq, Repr

/-- The paid test of `handleCheckPayment` (`src/index.js` line 566):
`verify && (verify.status === 'success' || verify.paid === true ||
verify.status === true)`. -/
def verifyPaid : Option VerifyResp → Bool
  | none => false
  | some v =>
    v.status == .jstr "success" || v.paid == .jbool true ||
      v.status == .jbool true

/-- Outcome of `handleCheckPayment` in `src/index.js`. -/
inductive CheckOutcomeA
  | invoiceNotFound
  | confirmedProcessed (r : ProcResult)
  | notConfirmed
  deriving DecidableEq, Repr

/-- `handleCheckPayment` from `src/index.js` lines 554–573: looks the trx id
up, asks the provider, and on a paid-looking answer runs
`processSuccessfulPayment`.  Note: no expiry check of any kind. -/
def handleCheckPayment (s : StateA) (trxid : String)
    (verify : Option VerifyResp) : StateA × CheckOutcomeA :=
  match s.pending trxid with
  | none => (s, .invoiceNotFound)
  | some _ =>
    if verifyPaid verify then
      let r := processSuccessfulPayment s trxid
      (r.1, .confirmedProcessed r.2)
    else
      (s, .notConfirmed)

/-- Outcome of `handleCancelPayment` in `src/index.js`. -/
inductive CancelOutcomeA
  | notFound
  | forbidden
  | cancelled
  deriving DecidableEq, Repr

/-- `handleCancelPayment` from `src/index.js` lines 576–593: only the owner
or the admin may cancel; cancelling deletes the pending record and nothing
else. -/
def handleCancelPayment (s : StateA) (userId adminId trxid : String) :
    StateA × CancelOutcomeA :=
  match s.pending trxid with
  | none => (s, .notFound)
  | some p =>
    if p.userId ≠ userId ∧ userId ≠ adminId then (s, .forbidden)
    else
      ({ s with pending := setKey s.pending trxid none }, .cancelled)

/-- The JSON body of a provider `createInvoice` response.  `status` is the
success flag the handler truthiness-tests; `trxid` stands for the first
defined field of the long coalescing chain
`trxid || trx_id || trxId || trx || id || reference || … || id_trx` on line
498; `expiredAt` for `expired_at || expired || null`. -/
structure InvoiceBody where
  status : JPrim
  trxid : Option String
  expiredAt : Option Nat
  deriving DecidableEq, Repr

/-- The observable outcome of the `fetch` inside `createInvoice`: a network
error (the promise rejects), or an HTTP response with a 2xx flag and a body
that either parses as JSON or does not. -/
inductive FetchA
  | netErr
  | httpResp (ok : Bool) (body : Option InvoiceBody)
  deriving DecidableEq, Repr

/-- `createInvoice` from `src/index.js` lines 191–227: posts to the
provider and returns the parsed JSON, or `null` when the fetch or the JSON
parse throws.  The HTTP status code is never inspected (`res.ok` is not
read), so a non-2xx response with a parsable body is returned as-is. -/
def createInvoice : FetchA → Option InvoiceBody
  | .netErr => none
  | .httpResp _ none => none
  | .httpResp _ (some b) => some b

/-- The purchase session (`{ action: 'browsing_product', productKey, qty }`). -/
structure SessionA where
  productKey : String
  qty : Nat
  deriving DecidableEq, Repr

/-- Outcome of `handlePurchaseConfirm` in `src/index.js`. -/
inductive PurchaseOutcomeA
  | noSession
  | noProduct
  | stockMsg
  | invoiceFail
  | created (trxid : String)
  deriving DecidableEq, Repr

/-- Result of `handlePurchaseConfirm`; `providerCalled` records whether the
control flow reached the `createInvoice` call. -/
structure PurchaseResultA where
  state : StateA
  outcome : PurchaseOutcomeA
  providerCalled : Bool

/-- `handlePurchaseConfirm` from `src/index.js` lines 449–551: validates the
session, the product and the stock (`product.list.length < qty` aborts with
a stock message *before* `createInvoice`), then calls the provider; any
falsy response or falsy `status` field aborts without persisting anything,
and on success a `pending` record is stored under the resolved trx id
(`nowKey` is the `'TRX' + Date.now()` fallback, `now` the `createdAt`
clock reading). -/
def handlePurchaseConfirm (s : StateA) (userId : String)
    (session : Option SessionA) (inv : FetchA) (now : Nat) (nowKey : String) :
    PurchaseResultA :=
  match session with
  | none => { state := s, outcome := .noSession, providerCalled := false }
  | some sess =>
    match s.accounts sess.productKey with
    | none => { state := s, outcome := .noProduct, providerCalled := false }
    | some product =>
      let qty := if sess.qty = 0 then 1 else sess.qty
      if product.listA.length < qty then
        { state := s, outcome := .stockMsg, providerCalled := false }
      else
        match createInvoice inv with
        | none =>
          { state := s, outcome := .invoiceFail, providerCalled := true }
        | some body =>
          if body.status.truthy = false then
            { state := s, outcome := .invoiceFail, providerCalled := true }
          else
            let trxid := body.trxid.getD nowKey
            let rec0 : PendingA :=
              { userId := userId, productSku := sess.productKey, qty := qty,
                amount := product.price * qty, createdAt := now,
                expiresAt := body.expiredAt, status := "pending" }
            { state := { s with pending := setKey s.pending trxid (some rec0) },
              outcome := .created trxid, providerCalled := true }

/-- The condition under which `createInvoice` + the checks of
`handlePurchaseConfirm` treat the attempt as failed: no parsed body at all,
or a body whose `status` field is falsy. -/
def invoiceCreateFails (f : FetchA) : Bool :=
  match createInvoice f with
  | none => true
  | some b => !b.status.truthy

end IndexJs

namespace DepositBot

/-- Result of the raw `binding.get(key)` call in the deposit-flow variant
(`src/unnamed/part_000` lines 11–19): the call may throw, return `null`/an
empty string (both falsy), or return a raw string whose `JSON.parse` either
succeeds or throws. -/
inductive DBGetResult
  | failure
  | missing
  | rawParsed (v : Option JPrim)
  deriving DecidableEq, Repr

/-- Result of the underlying `binding.put`. -/
inductive DBPutResult
  | ok
  | failure
  deriving DecidableEq, Repr

/-- What `loadDB` hands back: a parsed value or the substituted `{}`. -/
inductive DBValue
  | emptyObj
  | value (v : JPrim)
  deriving DecidableEq, Repr

/-- `loadDB` from `src/unnamed/part_000` lines 11–19: `{}` when the get
throws, when nothing (or an empty string) is stored, or when `JSON.parse`
throws inside the `try`. -/
def loadDB : DBGetResult → DBValue
  | .failure => .emptyObj
  | .missing => .emptyObj
  | .rawParsed none => .emptyObj
  | .rawParsed (some v) => .value v

/-- `saveDB` from `src/unnamed/part_000` lines 20–28. -/
def saveDB : DBPutResult → Bool
  | .ok => true
  | .failure => false

/-- A ledger entry built by `addTransaction` (lines 50–65); the generated
`id` and ISO `timestamp` are opaque and omitted. -/
structure TxnB where
  txType : String
  amount : Nat
  productName : String
  txStatus : String
  deriving DecidableEq, Repr

/-- `addTransaction` from `src/unnamed/part_000` lines 50–65: pushes the
new entry for `userId` and, when the history exceeds 50 entries, keeps only
the most recent 50 (`slice(-50)`). -/
def addTransaction (txs : String → List TxnB) (userId : String) (t : TxnB) :
    String → List TxnB :=
  let l := txs userId ++ [t]
  let capped := if l.length > 50 then l.drop (l.length - 50) else l
  setList txs userId capped

/-- The `depositBonus` block of the reward settings. -/
structure DepositBonusCfg where
  enabled : Bool
  percentage : Nat
  minAmount : Nat
  maxBonus : Nat
  deriving DecidableEq, Repr

/-- Reward settings as read by `calculateDepositBonus` (lines 150–175);
blocks the deposit flow never reads are omitted. -/
structure RewardSettings where
  enabled : Bool
  depositBonus : DepositBonusCfg
  deriving DecidableEq, Repr

/-- `calculateDepositBonus` from `src/unnamed/part_000` lines 168–175:
no bonus when disabled or below `minAmount`, otherwise
`floor(nominal * percentage / 100)` capped at `maxBonus`. -/
def calculateDepositBonus (settings : RewardSettings) (nominal : Nat) : Nat :=
  if !settings.enabled || !settings.depositBonus.enabled then 0
  else if nominal < settings.depositBonus.minAmount then 0
  else
    let bonus := nominal * settings.depositBonus.percentage / 100
    if bonus > settings.depositBonus.maxBonus then settings.depositBonus.maxBonus
    else bonus

/-- A user record of the deposit-flow variant (`{ saldo, purchaseCount,
achievements }`; only the balance matters to these claims). -/
structure UserB where
  saldo : Nat
  deriving DecidableEq, Repr

/-- A record of the `pending_payments` store, keyed by *user id*
(`createQrisAndConfirm` lines 237–247): the original `nominal`, the
surcharged `finalNominal` actually due, the provider transaction id, the
creation `timestamp` (ms), a status string, and the provider expiry window
in minutes (`expired_minutes`; 0 models a falsy/absent value, which the
code replaces by 10). -/
structure PendingB where
  nominal : Nat
  finalNominal : Nat
  transactionId : String
  timestamp : Nat
  pstatus : String
  expiredMinutes : Nat
  fee : Nat
  deriving DecidableEq, Repr

/-- Durable state of the deposit-flow variant. -/
structure StateB where
  users : String → Option UserB
  pendingB : String → Option PendingB
  transactionsB : String → List TxnB
  rewardSettings : RewardSettings

/-- What `processDepositWithBonus` returns (lines 176–189). -/
structure DepositResult where
  nominal : Nat
  bonus : Nat
  totalCredit : Nat
  newBalance : Nat
  deriving DecidableEq, Repr

/-- `processDepositWithBonus` from `src/unnamed/part_000` lines 176–189:
creates the user on demand, credits `nominal + bonus` to `saldo`, then
appends a `deposit` transaction and, when the bonus is positive, a `bonus`
transaction. -/
def processDepositWithBonus (s : StateB) (userId : String) (nominal : Nat) :
    StateB × DepositResult :=
  let u := (s.users userId).getD { saldo := 0 }
  let bonus := calculateDepositBonus s.rewardSettings nominal
  let totalCredit := nominal + bonus
  let u2 : UserB := { saldo := u.saldo + totalCredit }
  let users2 := setKey s.users userId (some u2)
  let depTxn : TxnB :=
    { txType := "deposit", amount := nominal, productName := "Deposit",
      txStatus := "completed" }
  let txs2 := addTransaction s.transactionsB userId depTxn
  let bonTxn : TxnB :=
    { txType := "bonus", amount := bonus, productName := "Bonus Deposit",
      txStatus := "completed" }
  let txs3 := if bonus > 0 then addTransaction txs2 userId bonTxn else txs2
  ({ s with users := users2, transactionsB := txs3 },
   { nominal := nominal, bonus := bonus, totalCredit := totalCredit,
     newBalance := u2.saldo })

/-- The effective expiry window of a pending deposit:
`paymentData.expired_minutes || 10` (line 371). -/
def effExpiry (p : PendingB) : Nat :=
  if p.expiredMinutes = 0 then 10 else p.expiredMinutes

/-- The observable outcome of the status-check `fetch` inside
`handleConfirmPayment` (lines 394–402): the fetch or the JSON parse may
throw (caught by the outer `try`), the response may be non-2xx, or a body
`{ status, paid }` is obtained. -/
inductive ProviderResp
  | netOrParseError
  | httpNotOk
  | payload (status : Option String) (paid : Option Bool)
  deriving DecidableEq, Repr

/-- Outcome of `handleConfirmPayment`; `confirmed` carries the bonus and
the new balance shown to the user. -/
inductive ConfirmOutcome
  | noPending
  | idMismatch
  | expired
  | checkFailed
  | confirmed (bonus : Nat) (newBalance : Nat)
  | notDetected
  | errorCaught
  deriving DecidableEq, Repr

/-- `handleConfirmPayment` from `src/unnamed/part_000` lines 349–455: looks
the pending deposit up *by user id*, rejects a mismatched callback
transaction id, then performs the local expiry check (`(now - timestamp) /
60000 > expired_minutes || 10`, i.e. `now - timestamp > effExpiry * 60000`)
*before* contacting the provider — an expired record is removed and
reported expired no matter what the provider would say.  Otherwise the
provider is asked, and only `status === 'success' && paid === true` leads
to `processDepositWithBonus` followed by removal of the pending record. -/
def handleConfirmPayment (s : StateB) (userId cbTid : String) (now : Nat)
    (resp : ProviderResp) : StateB × ConfirmOutcome :=
  match s.pendingB userId with
  | none => (s, .noPending)
  | some pd =>
    if pd.transactionId ≠ cbTid then (s, .idMismatch)
    else if now - pd.timestamp > effExpiry pd * 60000 then
      ({ s with pendingB := setKey s.pendingB userId none }, .expired)
    else
      match resp with
      | .netOrParseError => (s, .errorCaught)
      | .httpNotOk => (s, .checkFailed)
      | .payload st paid =>
        if st = some "success" ∧ paid = some true then
          let r := processDepositWithBonus s userId pd.nominal
          let s2 := { r.1 with pendingB := setKey r.1.pendingB userId none }
          (s2, .confirmed r.2.bonus r.2.newBalance)
        else
          (s, .notDetected)

/-- Outcome of `handleCancelPayment` in the deposit-flow variant. -/
inductive CancelOutcomeB
  | noPending
  | cancelled
  deriving DecidableEq, Repr

/-- `handleCancelPayment` from `src/unnamed/part_000` lines 458–495: errors
when no deposit is pending for the user, otherwise removes the pending
record; balances, inventory and transaction history are never touched. -/
def handleCancelPayment (s : StateB) (userId : String) :
    StateB × CancelOutcomeB :=
  match s.pendingB userId with
  | none => (s, .noPending)
  | some _ =>
    ({ s with pendingB := setKey s.pendingB userId none }, .cancelled)

/-- The `data` object of a provider create-QRIS response (lines 226–231);
`qrisUrl` stands for `qris_url || download_url`, `transactionId` for
`transaction_id || data['kode transaksi']`. -/
structure CreateData where
  qrisUrl : Option String
  transactionId : Option String
  totalAmount : Option Nat
  expiredMinutes : Option Nat
  fee : Option Nat
  deriving DecidableEq, Repr

/-- The parsed body of a create-QRIS response (`{ status, data }`). -/
structure CreateRespB where
  cstatus : String
  cdata : Option CreateData
  deriving DecidableEq, Repr

/-- The observable outcome of the create-QRIS `fetch` (lines 214–219). -/
inductive QrisFetchB
  | netErr
  | httpResp (ok : Bool) (body : Option CreateRespB)
  deriving DecidableEq, Repr

/-- Outcome of `createQrisAndConfirm`. -/
inductive CreateOutcome
  | errorMsg
  | createdPending (transactionId : String)
  deriving DecidableEq, Repr

/-- `createQrisAndConfirm` from `src/unnamed/part_000` lines 207–309:
adds the random surcharge, calls the provider, and *only after* checking
`response.ok`, `status === 'success'`, the presence of `data`, and the
presence of both the QR url and the transaction id does it persist the
pending record (storing the *original* nominal separately from the
surcharged total) and append a `deposit_pending` history entry; any earlier
failure throws into the `catch`, which persists nothing. -/
def createQrisAndConfirm (s : StateB) (userId : String)
    (nominal randomAddition : Nat) (fetch : QrisFetchB) (now : Nat) :
    StateB × CreateOutcome :=
  let finalNominal := nominal + randomAddition
  match fetch with
  | .netErr => (s, .errorMsg)
  | .httpResp ok body =>
    if !ok then (s, .errorMsg)
    else
      match body with
      | none => (s, .errorMsg)
      | some resp =>
        if resp.cstatus ≠ "success" then (s, .errorMsg)
        else
          match resp.cdata with
          | none => (s, .errorMsg)
          | some d =>
            match d.qrisUrl, d.transactionId with
            | some _, some tid =>
              let totalAmount := d.totalAmount.getD finalNominal
              let em :=
                match d.expiredMinutes with
                | some n => if n = 0 then 10 else n
                | none => 10
              let fee := d.fee.getD 0
              let rec0 : PendingB :=
                { nominal := nominal, finalNominal := totalAmount,
                  transactionId := tid, timestamp := now,
                  pstatus := "pending", expiredMinutes := em, fee := fee }
              let pendTxn : TxnB :=
                { txType := "deposit_pending", amount := nominal,
                  productName := "Deposit", txStatus := "completed" }
              let s2 := { s with
                pendingB := setKey s.pendingB userId (some rec0),
                transactionsB := addTransaction s.transactionsB userId pendTxn }
              (s2, .createdPending tid)
            | _, _ => (s, .errorMsg)

/-- The failure condition of `createQrisAndConfirm`: every path that throws
before the pending record is saved (network error, non-2xx status, body
that does not parse, `status !== 'success'`, missing `data`, or missing
QR url / transaction id). -/
def qrisCreateFails : QrisFetchB → Bool
  | .netErr => true
  | .httpResp ok body =>
    if !ok then true
    else
      match body with
      | none => true
      | some resp =>
        if resp.cstatus ≠ "success" then true
        else
          match resp.cdata with
          | none => true
          | some d =>
            match d.qrisUrl, d.transactionId with
            | some _, some _ => false
            | _, _ => true

end DepositBot

namespace StoreBot

/-- A product of the second purchase-flow variant: pre-made credential
`entries` plus an optional numeric `stock` counter (`product.stock` may be
`undefined`, modelled as `none`). -/
structure ProductC where
  price : Nat
  entries : List String
  stock : Option Nat
  deriving DecidableEq, Repr

/-- A record of `pending_payments`, keyed by `paymentId`
(`handlePurchaseStart`, `src/unnamed/part_000` lines 1078–1090).  Note it
carries no status field at all. -/
structure PendingC where
  paymentId : String
  userId : String
  productKey : String
  qty : Nat
  amount : Nat
  createdAt : Nat
  deriving DecidableEq, Repr

/-- A ledger entry of `addTransaction` (lines 766–774). -/
structure TxnC where
  txType : String
  amount : Nat
  productName : String
  txStatus : String
  deriving DecidableEq, Repr

/-- The global `statistics` record, reduced to the counters
`updateStatistics` bumps on a purchase (daily/per-product breakdowns are
presentation detail and omitted). -/
structure StatsC where
  totalTransactions : Nat
  totalRevenue : Nat
  deriving DecidableEq, Repr

/-- Durable state of the second purchase-flow variant. -/
structure StateC where
  accounts : String → Option ProductC
  pendingC : String → Option PendingC
  transactionsC : String → List TxnC
  stats : StatsC

/-- `addTransaction` from `src/unnamed/part_000` lines 766–774: pushes the
entry and keeps only the most recent 100 (`slice(-100)`). -/
def addTransaction (txs : String → List TxnC) (userId : String) (t : TxnC) :
    String → List TxnC :=
  let l := txs userId ++ [t]
  let capped := if l.length > 100 then l.drop (l.length - 100) else l
  setList txs userId capped

/-- `updateStatistics(binding, 'purchase', …)` from lines 722–744, reduced
to the total counters. -/
def updateStatsPurchase (st : StatsC) (amount : Nat) : StatsC :=
  { totalTransactions := st.totalTransactions + 1,
    totalRevenue := st.totalRevenue + amount }

/-- What `deliverProduct` returns (lines 814–849): the delivered items and
the updated accounts store.  The placeholder string sent when a product has
only a numeric counter is abbreviated. -/
structure DeliveryResult where
  delivered : List String
  deriving DecidableEq, Repr

/-- `deliverProduct` from `src/unnamed/part_000` lines 814–849: pops up to
`qty` entries off the front of `product.entries` (fewer when the list runs
out — there is no out-of-stock failure), or, when there are no entries but
a numeric `stock`, decrements the counter by `min qty stock` and returns
that many placeholder lines; a missing product or a product with neither
representation delivers nothing. -/
def deliverProduct (accounts : String → Option ProductC)
    (productKey : String) (qty : Nat) :
    (String → Option ProductC) × DeliveryResult :=
  match accounts productKey with
  | none => (accounts, { delivered := [] })
  | some product =>
    if product.entries.length > 0 then
      let delivered := product.entries.take qty
      let rest := product.entries.drop qty
      let product2 := { product with entries := rest, stock := some rest.length }
      (setKey accounts productKey (some product2), { delivered := delivered })
    else
      match product.stock with
      | some st =>
        let reduce := min qty st
        let product2 := { product with stock := some (st - reduce) }
        (setKey accounts productKey (some product2),
         { delivered := List.replicate reduce "placeholder-manual-delivery" })
      | none => (accounts, { delivered := [] })

/-- The parsed body of a check-payment response (lines 880–896).  `res`
stands for the `result` field. -/
structure StatusRespC where
  status : Option String
  paymentStatus : Option String
  res : Option String
  paid : Option Bool
  deriving DecidableEq, Repr

/-- JS `a || b || c || ''` over optional strings (empty strings are falsy). -/
def firstTruthy : List (Option String) → String
  | [] => ""
  | some s :: rest => if s = "" then firstTruthy rest else s
  | none :: rest => firstTruthy rest

/-- The paid test of `handleCheckPayment` (lines 1123–1126): uppercase the
first truthy of `status`/`payment_status`/`result` and accept it when it
*contains* `PAID`, `SUCCESS` or `SETTLED` as a substring, or when
`paid === true`. -/
def isPaid (r : StatusRespC) : Bool :=
  let status := upperChars (firstTruthy [r.status, r.paymentStatus, r.res]).toList
  charsContains "PAID".toList status || charsContains "SUCCESS".toList status ||
    charsContains "SETTLED".toList status || r.paid == some true

/-- Outcome of `handleCheckPayment` in this variant. -/
inductive CheckOutcomeC
  | notFound
  | checkFailed
  | notPaid
  | delivered (items : List String)
  deriving DecidableEq, Repr

/-- `handleCheckPayment` from `src/unnamed/part_000` lines 1114–1165: looks
the pending record up by payment id (no expiry check, no re-verification of
stock), and when the response looks paid it unconditionally runs
`deliverProduct`, records a `purchase` transaction, bumps statistics and
removes the pending record — whatever `deliverProduct` managed to
deliver. -/
def handleCheckPayment (s : StateC) (paymentId : String)
    (resp : Option StatusRespC) : StateC × CheckOutcomeC :=
  match s.pendingC paymentId with
  | none => (s, .notFound)
  | some pending =>
    match resp with
    | none => (s, .checkFailed)
    | some r =>
      if !isPaid r then (s, .notPaid)
      else
        let d := deliverProduct s.accounts pending.productKey pending.qty
        let txn : TxnC :=
          { txType := "purchase", amount := pending.amount,
            productName := pending.productKey, txStatus := "completed" }
        let txs2 := addTransaction s.transactionsC pending.userId txn
        let stats2 := updateStatsPurchase s.stats pending.amount
        let pending2 := setKey s.pendingC paymentId none
        ({ accounts := d.1, pendingC := pending2, transactionsC := txs2,
           stats := stats2 }, .delivered d.2.delivered)

/-- The browsing session of the purchase flow. -/
structure SessionC where
  productKey : String
  qty : Nat
  deriving DecidableEq, Repr

/-- The parsed body of a create-QRIS response (lines 1066–1076);
`paymentId` stands for `paymentId || id || external_id`. -/
structure QrisRespC where
  success : Bool
  paymentId : Option String
  deriving DecidableEq, Repr

/-- Outcome of `handlePurchaseStart`. -/
inductive StartOutcomeC
  | noSession
  | noProduct
  | qrisFailed
  | created (paymentId : String)
  deriving DecidableEq, Repr

/-- Result of `handlePurchaseStart`; `providerCalled` records whether the
control flow reached the `createQris` call. -/
structure StartResultC where
  state : StateC
  outcome : StartOutcomeC
  providerCalled : Bool

/-- `handlePurchaseStart` from `src/unnamed/part_000` lines 1053–1111:
validates only the session and the product — there is *no* stock check of
any kind — then immediately calls `createQris` with `price * qty` and, on a
successful response, persists the pending payment (`nowKey` is the
`'PM' + Date.now()` fallback payment id, `now` the `createdAt` clock
reading). -/
def handlePurchaseStart (s : StateC) (userId : String)
    (session : Option SessionC) (qris : Option QrisRespC) (now : Nat)
    (nowKey : String) : StartResultC :=
  match session with
  | none => { state := s, outcome := .noSession, providerCalled := false }
  | some sess =>
    match s.accounts sess.productKey with
    | none => { state := s, outcome := .noProduct, providerCalled := false }
    | some product =>
      let qty := if sess.qty = 0 then 1 else sess.qty
      let total := product.price * qty
      match qris with
      | none =>
        { state := s, outcome := .qrisFailed, providerCalled := true }
      | some resp =>
        if !resp.success then
          { state := s, outcome := .qrisFailed, providerCalled := true }
        else
          let paymentId := resp.paymentId.getD nowKey
          let rec0 : PendingC :=
            { paymentId := paymentId, userId := userId,
              productKey := sess.productKey, qty := qty, amount := total,
              createdAt := now }
          { state := { s with pendingC := setKey s.pendingC paymentId (some rec0) },
            outcome := .created paymentId, providerCalled := true }

end StoreBot

/-! ### Concrete fixtures used by witnesses and counterexamples -/

/-- A product with two list-backed items, for the `IndexJs` flow. -/
def c1prod : IndexJs.ProductA := { price := 1000, listA := ["a1", "a2"], stock := 2 }

/-- A pending record that has left `pending` into `failed`. -/
def c1rec : IndexJs.PendingA :=
  { userId := "u", productSku := "sku", qty := 1, amount := 1000,
    createdAt := 0, expiresAt := none, status := "failed" }

/-- A state holding the `failed` record and a restocked product. -/
def c1state : IndexJs.StateA :=
  { accounts := fun k => if k = "sku" then some c1prod else none,
    pending := fun k => if k = "T1" then some c1rec else none,
    transactions := fun _ => [] }

/-- A pending record already marked `paid`. -/
def c1paidRec : IndexJs.PendingA :=
  { userId := "u", productSku := "sku", qty := 1, amount := 1000,
    createdAt := 0, expiresAt := none, status := "paid" }

/-- A state holding only the already-`paid` record. -/
def c1paidState : IndexJs.StateA :=
  { accounts := fun _ => none,
    pending := fun k => if k = "T2" then some c1paidRec else none,
    transactions := fun _ => [] }

/-- A single-item product for the expiry counterexample. -/
def c2prod : IndexJs.ProductA := { price := 500, listA := ["x1"], stock := 1 }

/-- A pending record created at time 0 with a 5-minute provider expiry. -/
def c2rec : IndexJs.PendingA :=
  { userId := "u3", productSku := "sku3", qty := 1, amount := 500,
    createdAt := 0, expiresAt := some 5, status := "pending" }

/-- State for the expiry counterexample against `IndexJs.handleCheckPayment`. -/
def c2state : IndexJs.StateA :=
  { accounts := fun k => if k = "sku3" then some c2prod else none,
    pending := fun k => if k = "T3" then some c2rec else none,
    transactions := fun _ => [] }

/-- A provider answer claiming the payment succeeded. -/
def c2verify : IndexJs.VerifyResp := { status := .jstr "success", paid := .jnull }

/-- The reward settings `loadRewardSettings` falls back to
(`src/unnamed/part_000` lines 153–159): 5 % deposit bonus, minimum 10000,
bonus cap 50000. -/
def defaultDepositSettings : DepositBot.RewardSettings :=
  { enabled := true,
    depositBonus :=
      { enabled := true, percentage := 5, minAmount := 10000, maxBonus := 50000 } }

/-- An expired pending deposit (created at 0, 10-minute window). -/
def c2bPending : DepositBot.PendingB :=
  { nominal := 5000, finalNominal := 5100, transactionId := "TID7",
    timestamp := 0, pstatus := "pending", expiredMinutes := 10, fee := 100 }

/-- State for the deposit-flow expiry witness. -/
def c2bState : DepositBot.StateB :=
  { users := fun _ => none,
    pendingB := fun k => if k = "u7" then some c2bPending else none,
    transactionsB := fun _ => [],
    rewardSettings := defaultDepositSettings }

/-- A product with a single remaining item. -/
def c3prod : IndexJs.ProductA := { price := 100, listA := ["b1"], stock := 1 }

/-- A pending purchase of 3 units of the single-item product. -/
def c3rec : IndexJs.PendingA :=
  { userId := "u4", productSku := "sku4", qty := 3, amount := 300,
    createdAt := 0, expiresAt := none, status := "pending" }

/-- State for the out-of-stock witness against `processSuccessfulPayment`. -/
def c3state : IndexJs.StateA :=
  { accounts := fun k => if k = "sku4" then some c3prod else none,
    pending := fun k => if k = "T4" then some c3rec else none,
    transactions := fun _ => [] }

/-- A `StoreBot` product with one remaining credential entry. -/
def c3cprod : StoreBot.ProductC := { price := 500, entries := ["e1"], stock := some 1 }

/-- A pending purchase of 2 units in the `StoreBot` flow. -/
def c3crec : StoreBot.PendingC :=
  { paymentId := "PM1", userId := "u1", productKey := "p1", qty := 2,
    amount := 1000, createdAt := 0 }

/-- State for the out-of-stock counterexample against
`StoreBot.handleCheckPayment`. -/
def c3cState : StoreBot.StateC :=
  { accounts := fun k => if k = "p1" then some c3cprod else none,
    pendingC := fun k => if k = "PM1" then some c3crec else none,
    transactionsC := fun _ => [],
    stats := { totalTransactions := 0, totalRevenue := 0 } }

/-- A provider status response reading `PAID`. -/
def paidRespC : StoreBot.StatusRespC :=
  { status := some "PAID", paymentStatus := none, res := none, paid := none }

/-- A provider status response reading `UNPAID` — it does *not* indicate a
successful payment. -/
def unpaidRespC : StoreBot.StatusRespC :=
  { status := some "UNPAID", paymentStatus := none, res := none, paid := none }

/-- A product with one credential entry, for the `UNPAID` counterexample. -/
def c4prod : StoreBot.ProductC := { price := 500, entries := ["f1"], stock := some 1 }

/-- A pending purchase of one unit. -/
def c4rec : StoreBot.PendingC :=
  { paymentId := "PM2", userId := "u2", productKey := "p2", qty := 1,
    amount := 500, createdAt := 0 }

/-- State for the `UNPAID` counterexample. -/
def c4state : StoreBot.StateC :=
  { accounts := fun k => if k = "p2" then some c4prod else none,
    pendingC := fun k => if k = "PM2" then some c4rec else none,
    transactionsC := fun _ => [],
    stats := { totalTransactions := 0, totalRevenue := 0 } }

/-- A fresh pending deposit of nominal 10000 due 10144 (Scenario A). -/
def c5Pending : DepositBot.PendingB :=
  { nominal := 10000, finalNominal := 10144, transactionId := "TID5",
    timestamp := 0, pstatus := "pending", expiredMinutes := 10, fee := 144 }

/-- A user holding 2000 before the deposit. -/
def c5user : DepositBot.UserB := { saldo := 2000 }

/-- State for the Scenario A witness. -/
def c5state : DepositBot.StateB :=
  { users := fun k => if k = "u5" then some c5user else none,
    pendingB := fun k => if k = "u5" then some c5Pending else none,
    transactionsB := fun _ => [],
    rewardSettings := defaultDepositSettings }

/-- A product with a single item, to be ordered in quantity 5. -/
def c6prod : IndexJs.ProductA := { price := 700, listA := ["c1"], stock := 1 }

/-- State for the insufficient-stock witness against
`IndexJs.handlePurchaseConfirm`. -/
def c6state : IndexJs.StateA :=
  { accounts := fun k => if k = "sku6" then some c6prod else none,
    pending := fun _ => none,
    transactions := fun _ => [] }

/-- A `StoreBot` product that is completely out of stock. -/
def c6cprod : StoreBot.ProductC := { price := 800, entries := [], stock := some 0 }

/-- State for the no-stock-check counterexample against
`StoreBot.handlePurchaseStart`. -/
def c6cState : StoreBot.StateC :=
  { accounts := fun k => if k = "p3" then some c6cprod else none,
    pendingC := fun _ => none,
    transactionsC := fun _ => [],
    stats := { totalTransactions := 0, totalRevenue := 0 } }

/-- A successful create-QRIS response for the out-of-stock order. -/
def c6qris : StoreBot.QrisRespC := { success := true, paymentId := some "PM7" }

/-- A well-stocked product for the provider-failure claim. -/
def c7prod : IndexJs.ProductA := { price := 900, listA := ["d1", "d2"], stock := 2 }

/-- State for the non-2xx counterexample against
`IndexJs.handlePurchaseConfirm`. -/
def c7state : IndexJs.StateA :=
  { accounts := fun k => if k = "sku7" then some c7prod else none,
    pending := fun _ => none,
    transactions := fun _ => [] }

/-- An invoice body claiming success, delivered with a non-2xx HTTP status. -/
def c7body : IndexJs.InvoiceBody :=
  { status := .jbool true, trxid := some "T9", expiredAt := none }

/-- A pending record that was fulfilled and archived with status `paid`
(`processSuccessfulPayment` marks it `paid` but never removes it). -/
def c8rec : IndexJs.PendingA :=
  { userId := "u8", productSku := "sku8", qty := 1, amount := 1200,
    createdAt := 0, expiresAt := none, status := "paid" }

/-- State holding the fulfilled (`paid`) record. -/
def c8state : IndexJs.StateA :=
  { accounts := fun _ => none,
    pending := fun k => if k = "T5" then some c8rec else none,
    transactions := fun _ => [] }

/-- An `IndexJs` state with no records at all. -/
def emptyStateA : IndexJs.StateA :=
  { accounts := fun _ => none, pending := fun _ => none,
    transactions := fun _ => [] }

/-- A `DepositBot` state with no records at all. -/
def emptyStateB : DepositBot.StateB :=
  { users := fun _ => none, pendingB := fun _ => none,
    transactionsB := fun _ => [], rewardSettings := defaultDepositSettings }

/-! ### Helper lemmas about the store model -/

@[simp]
theorem setKey_self {α : Type} (m : String → Option α) (k : String)
    (v : Option α) : setKey m k v k = v := by
  simp [setKey]

theorem setKey_of_ne {α : Type} (m : String → Option α) (k x : String)
    (v : Option α) (h : x ≠ k) : setKey m k v x = m x := by
  simp [setKey, h]

@[simp]
theorem setList_self {α : Type} (m : String → List α) (k : String)
    (v : List α) : setList m k v k = v := by
  simp [setList]

theorem setList_of_ne {α : Type} (m : String → List α) (k x : String)
    (v : List α) (h : x ≠ k) : setList m k v x = m x := by
  simp [setList, h]

/-- Below the 50-entry cap, `DepositBot.addTransaction` is a plain append. -/
theorem addTransactionB_under_cap (txs : String → List DepositBot.TxnB)
    (userId : String) (t : DepositBot.TxnB)
    (h : (txs userId).length < 50) :
    DepositBot.addTransaction txs userId t userId = txs userId ++ [t] := by
  simp only [DepositBot.addTransaction, setList_self]
  rw [if_neg]
  simp
  omega

/-! ### Claim C1 — confirm after the record has left `Pending` -/

/-- Claim C1 is false as stated: a record whose status has left `pending`
into `failed` is *not* protected.  In `c1state` the record `T1` is
`failed`, yet a later `processSuccessfulPayment` pops inventory and
appends a purchase transaction instead of being a no-op. -/
theorem c1_counterexample :
    (c1state.pending "T1").map IndexJs.PendingA.status = some "failed" ∧
    (IndexJs.processSuccessfulPayment c1state "T1").2
        = IndexJs.ProcResult.fulfilled ["a1"] ∧
    ((IndexJs.processSuccessfulPayment c1state "T1").1.transactions "u").length
        = 1 ∧
    ((IndexJs.processSuccessfulPayment c1state "T1").1.accounts "sku").map
        IndexJs.ProductA.listA = some ["a2"] := by
  decide

/-- Claim C1 (amended): once a record is marked `paid`, any later confirm
attempt for the same trx id is a strict no-op (`processSuccessfulPayment`
returns the state unchanged); and running confirm twice in sequence on a
fulfillable invoice yields exactly one fulfilled outcome with one set of
delivered items, one appended `purchase` transaction, and a no-op second
run.  (Records in status `failed` are not protected — see the
counterexample.) -/
theorem c1_amended (s : IndexJs.StateA) (trxid : String)
    (p : IndexJs.PendingA) (hp : s.pending trxid = some p) :
    (p.status = "paid" →
      IndexJs.processSuccessfulPayment s trxid
        = (s, IndexJs.ProcResult.alreadyPaid)) ∧
    (∀ prod : IndexJs.ProductA, s.accounts p.productSku = some prod →
      p.status ≠ "paid" → p.qty ≤ prod.listA.length →
      (IndexJs.processSuccessfulPayment s trxid).2
          = IndexJs.ProcResult.fulfilled (prod.listA.take p.qty) ∧
      IndexJs.processSuccessfulPayment
          (IndexJs.processSuccessfulPayment s trxid).1 trxid
        = ((IndexJs.processSuccessfulPayment s trxid).1,
           IndexJs.ProcResult.alreadyPaid) ∧
      (IndexJs.processSuccessfulPayment s trxid).1.transactions p.userId
        = s.transactions p.userId ++
          [{ txType := "purchase", amount := p.amount, qty := p.qty,
             items := prod.listA.take p.qty }]) := by
  constructor
  · intro hpaid
    simp [IndexJs.processSuccessfulPayment, hp, hpaid]
  · intro prod hprod hnp hq
    have hlt : ¬ prod.listA.length < p.qty := not_lt.mpr hq
    refine ⟨?_, ?_, ?_⟩
    · simp [IndexJs.processSuccessfulPayment, hp, hprod, hnp, hlt]
    · simp [IndexJs.processSuccessfulPayment, hp, hprod, hnp, hlt]
    · simp [IndexJs.processSuccessfulPayment, hp, hprod, hnp, hlt]

/-- Witness for `c1_amended`: it applies on the concrete `paid` record of
`c1paidState`, where confirm is a no-op. -/
theorem c1_amended_witness :
    IndexJs.processSuccessfulPayment c1paidState "T2"
      = (c1paidState, IndexJs.ProcResult.alreadyPaid) :=
  (c1_amended c1paidState "T2" c1paidRec (by decide)).1 rfl

/-! ### Claim C2 — expiry before provider check -/

/-- Claim C2 is false as stated: `IndexJs.handleCheckPayment` performs no
expiry check whatsoever.  The record `T3` was created at time 0 with a
5-minute window; at any later time — e.g. 900000000 ms, far beyond the
window — a check with a provider answer of `success` still fulfils the
payment, delivering the item and appending a purchase transaction. -/
theorem c2_counterexample :
    (c2state.pending "T3").map IndexJs.PendingA.createdAt = some 0 ∧
    (c2state.pending "T3").map IndexJs.PendingA.expiresAt = some (some 5) ∧
    5 * 60000 < 900000000 - 0 ∧
    (IndexJs.handleCheckPayment c2state "T3" (some c2verify)).2
        = IndexJs.CheckOutcomeA.confirmedProcessed
            (IndexJs.ProcResult.fulfilled ["x1"]) ∧
    ((IndexJs.handleCheckPayment c2state "T3"
        (some c2verify)).1.accounts "sku3").map IndexJs.ProductA.listA
        = some [] ∧
    ((IndexJs.handleCheckPayment c2state "T3"
        (some c2verify)).1.transactions "u3").length = 1 := by
  decide

/-- Claim C2 (amended): in the deposit flow, once `now - timestamp` exceeds
the effective expiry window, `handleConfirmPayment` never returns a
confirmed outcome and never touches balances or history, *regardless of
the provider response* (the response is quantified and unused — the local
check sits before the provider call); when the callback transaction id
matches, the outcome is exactly `expired` with the record removed.  The
purchase-check flows perform no such check (see the counterexample). -/
theorem c2_amended (s : DepositBot.StateB) (userId cbTid : String)
    (now : Nat) (resp : DepositBot.ProviderResp) (pd : DepositBot.PendingB)
    (hp : s.pendingB userId = some pd)
    (hexp : now - pd.timestamp > DepositBot.effExpiry pd * 60000) :
    (∀ b nb, (DepositBot.handleConfirmPayment s userId cbTid now resp).2
        ≠ DepositBot.ConfirmOutcome.confirmed b nb) ∧
    (DepositBot.handleConfirmPayment s userId cbTid now resp).1.users
        = s.users ∧
    (DepositBot.handleConfirmPayment s userId cbTid now resp).1.transactionsB
        = s.transactionsB ∧
    (pd.transactionId = cbTid →
      DepositBot.handleConfirmPayment s userId cbTid now resp
        = ({ s with pendingB := setKey s.pendingB userId none },
           DepositBot.ConfirmOutcome.expired)) := by
  by_cases htid : pd.transactionId = cbTid
  · simp [DepositBot.handleConfirmPayment, hp, htid, hexp]
  · simp [DepositBot.handleConfirmPayment, hp, htid]

/-- Witness for `c2_amended`: the concrete expired deposit of `c2bState`
is reported expired and removed even though the provider claims success. -/
theorem c2_amended_witness :
    DepositBot.handleConfirmPayment c2bState "u7" "TID7" 900000000
        (DepositBot.ProviderResp.payload (some "success") (some true))
      = ({ c2bState with pendingB := setKey c2bState.pendingB "u7" none },
         DepositBot.ConfirmOutcome.expired) :=
  ((c2_amended c2bState "u7" "TID7" 900000000
      (DepositBot.ProviderResp.payload (some "success") (some true))
      c2bPending (by decide) (by decide)).2.2.2) rfl

/-! ### Claim C3 — out-of-stock fulfilment -/

/-- Claim C3 is false as stated for the `StoreBot` purchase flow: with only
one entry in stock and a paid invoice for 2 units, `handleCheckPayment`
delivers the single remaining item (a silent partial delivery), *does*
record a purchase transaction, and removes the pending record outright —
no `Failed` status exists in this flow. -/
theorem c3_counterexample :
    (c3cState.accounts "p1").map StoreBot.ProductC.entries = some ["e1"] ∧
    (c3cState.pendingC "PM1").map StoreBot.PendingC.qty = some 2 ∧
    (StoreBot.handleCheckPayment c3cState "PM1" (some paidRespC)).2
        = StoreBot.CheckOutcomeC.delivered ["e1"] ∧
    ((StoreBot.handleCheckPayment c3cState "PM1"
        (some paidRespC)).1.transactionsC "u1")
        = [{ txType := "purchase", amount := 1000, productName := "p1",
             txStatus := "completed" }] ∧
    (StoreBot.handleCheckPayment c3cState "PM1"
        (some paidRespC)).1.pendingC "PM1" = none := by
  decide

/-- Claim C3 (amended): in the `src/index.js` flow the claimed behaviour
holds — when the provider reports paid but the product list no longer
covers `qty`, `processSuccessfulPayment` returns the out-of-stock outcome
(the user-notification message), transitions the record to `failed` in
place, and leaves inventory and transaction history untouched. -/
theorem c3_amended (s : IndexJs.StateA) (trxid : String)
    (p : IndexJs.PendingA) (prod : IndexJs.ProductA)
    (hp : s.pending trxid = some p) (hnp : p.status ≠ "paid")
    (hprod : s.accounts p.productSku = some prod)
    (hstock : prod.listA.length < p.qty) :
    IndexJs.processSuccessfulPayment s trxid
      = ({ s with pending := setKey s.pending trxid (some { p with status := "failed" }) },
         IndexJs.ProcResult.outOfStock) ∧
    (IndexJs.processSuccessfulPayment s trxid).1.accounts = s.accounts ∧
    (IndexJs.processSuccessfulPayment s trxid).1.transactions
        = s.transactions := by
  simp [IndexJs.processSuccessfulPayment, hp, hnp, hprod, hstock]

/-- Witness for `c3_amended`: a paid invoice for 3 units of a single-item
product is marked `failed` and nothing is delivered. -/
theorem c3_amended_witness :
    IndexJs.processSuccessfulPayment c3state "T4"
      = ({ c3state with pending := setKey c3state.pending "T4" (some { c3rec with status := "failed" }) },
         IndexJs.ProcResult.outOfStock) :=
  (c3_amended c3state "T4" c3rec c3prod (by decide) (by decide) (by decide)
    (by decide)).1

/-! ### Claim C4 — status normalization must never yield a false Paid -/

/-- Claim C4 exposes a code bug in the `StoreBot` flow: the paid test
upper-cases the status and matches `PAID` / `SUCCESS` / `SETTLED` as
*substrings*, so the clearly-not-paid provider status `UNPAID` is
classified as paid — `handleCheckPayment` then delivers the product, pops
the inventory entry and drops the pending record.  By contrast the exact
comparison of `IndexJs.verifyPaid` rejects the same status. -/
theorem c4_code_bug :
    StoreBot.isPaid unpaidRespC = true ∧
    (StoreBot.handleCheckPayment c4state "PM2" (some unpaidRespC)).2
        = StoreBot.CheckOutcomeC.delivered ["f1"] ∧
    (StoreBot.handleCheckPayment c4state "PM2"
        (some unpaidRespC)).1.pendingC "PM2" = none ∧
    ((StoreBot.handleCheckPayment c4state "PM2"
        (some unpaidRespC)).1.accounts "p2").map StoreBot.ProductC.entries
        = some [] ∧
    IndexJs.verifyPaid (some { status := .jstr "UNPAID", paid := .jnull })
        = false := by
  decide

/-! ### Claim C5 — Scenario A deposit arithmetic -/

/-- Claim C5: with the default reward settings (5 % bonus, minimum 10000,
cap 50000), confirming a paid pending deposit of original nominal 10000
credits exactly 10500 — the original nominal plus `floor(5 %) = 500`, not
the surcharged `finalNominal` — removes the pending record, and appends
exactly a `deposit 10000` entry followed by a `bonus 500` entry (two new
transactions whenever the history is below the cap). -/
theorem c5_theorem (s : DepositBot.StateB) (userId : String) (now : Nat)
    (pd : DepositBot.PendingB) (u : DepositBot.UserB)
    (hset : s.rewardSettings = defaultDepositSettings)
    (hp : s.pendingB userId = some pd) (hnom : pd.nominal = 10000)
    (hexp : ¬ now - pd.timestamp > DepositBot.effExpiry pd * 60000)
    (hu : s.users userId = some u)
    (hlen : (s.transactionsB userId).length ≤ 48) :
    (DepositBot.handleConfirmPayment s userId pd.transactionId now
        (DepositBot.ProviderResp.payload (some "success") (some true))).2
      = DepositBot.ConfirmOutcome.confirmed 500 (u.saldo + 10500) ∧
    ((DepositBot.handleConfirmPayment s userId pd.transactionId now
        (DepositBot.ProviderResp.payload (some "success")
          (some true))).1.users userId).map DepositBot.UserB.saldo
      = some (u.saldo + 10500) ∧
    (DepositBot.handleConfirmPayment s userId pd.transactionId now
        (DepositBot.ProviderResp.payload (some "success")
          (some true))).1.pendingB userId = none ∧
    (DepositBot.handleConfirmPayment s userId pd.transactionId now
        (DepositBot.ProviderResp.payload (some "success")
          (some true))).1.transactionsB userId
      = s.transactionsB userId ++
        [{ txType := "deposit", amount := 10000, productName := "Deposit",
           txStatus := "completed" },
         { txType := "bonus", amount := 500, productName := "Bonus Deposit",
           txStatus := "completed" }] := by
  have hbonus : DepositBot.calculateDepositBonus s.rewardSettings 10000
      = 500 := by
    rw [hset]
    decide
  have hne : ¬ pd.transactionId ≠ pd.transactionId := by simp
  have hdep : DepositBot.addTransaction s.transactionsB userId
      { txType := "deposit", amount := 10000, productName := "Deposit",
        txStatus := "completed" } userId
      = s.transactionsB userId ++
        [{ txType := "deposit", amount := 10000, productName := "Deposit",
           txStatus := "completed" }] :=
    addTransactionB_under_cap _ _ _ (by omega)
  have hbon : DepositBot.addTransaction
      (DepositBot.addTransaction s.transactionsB userId
        { txType := "deposit", amount := 10000, productName := "Deposit",
          txStatus := "completed" }) userId
      { txType := "bonus", amount := 500, productName := "Bonus Deposit",
        txStatus := "completed" } userId
      = DepositBot.addTransaction s.transactionsB userId
          { txType := "deposit", amount := 10000, productName := "Deposit",
            txStatus := "completed" } userId ++
        [{ txType := "bonus", amount := 500, productName := "Bonus Deposit",
           txStatus := "completed" }] := by
    refine addTransactionB_under_cap _ _ _ ?_
    rw [hdep]
    simp
    omega
  simp only [DepositBot.handleConfirmPayment, hp, if_neg hne, if_neg hexp]
  rw [if_pos (by simp)]
  simp only [DepositBot.processDepositWithBonus, hu, Option.getD_some, hnom,
    hbonus]
  refine ⟨?_, ?_, ?_, ?_⟩
  · simp
  · simp
  · simp
  · simp only [if_pos (by norm_num : (500 : Nat) > 0)]
    rw [hbon, hdep]
    simp

/-- Witness for `c5_theorem`: the concrete Scenario A run — balance 2000
becomes 12500 after confirming the 10000 deposit (10144 was due), and the
outcome reports bonus 500. -/
theorem c5_witness :
    (DepositBot.handleConfirmPayment c5state "u5" "TID5" 60000
        (DepositBot.ProviderResp.payload (some "success") (some true))).2
      = DepositBot.ConfirmOutcome.confirmed 500 (2000 + 10500) :=
  (c5_theorem c5state "u5" 60000 c5Pending c5user rfl (by decide) rfl
    (by decide) (by decide) (by decide)).1

/-! ### Claim C6 — stock check before invoice creation -/

/-- Claim C6 is false as stated for the `StoreBot` purchase flow:
`handlePurchaseStart` performs no stock check at all, so for a product
with zero stock and no entries (an unfulfillable qty-1 order) the provider
create call is still reached and a pending payment is persisted. -/
theorem c6_counterexample :
    (c6cState.accounts "p3").map StoreBot.ProductC.entries = some [] ∧
    (c6cState.accounts "p3").map StoreBot.ProductC.stock = some (some 0) ∧
    (StoreBot.handlePurchaseStart c6cState "u2"
        (some { productKey := "p3", qty := 1 }) (some c6qris) 7
        "PMfallback").providerCalled = true ∧
    ((StoreBot.handlePurchaseStart c6cState "u2"
        (some { productKey := "p3", qty := 1 }) (some c6qris) 7
        "PMfallback").state.pendingC "PM7").isSome = true := by
  decide

/-- Claim C6 (amended): in the `src/index.js` flow the claimed behaviour
holds — when the effective quantity exceeds the product list,
`handlePurchaseConfirm` reports insufficient stock, leaves the state
untouched, and never reaches the `createInvoice` call (the invoice
response is quantified and unused). -/
theorem c6_amended (s : IndexJs.StateA) (userId : String)
    (sess : IndexJs.SessionA) (prod : IndexJs.ProductA)
    (inv : IndexJs.FetchA) (now : Nat) (nowKey : String)
    (hprod : s.accounts sess.productKey = some prod)
    (hstock : prod.listA.length < (if sess.qty = 0 then 1 else sess.qty)) :
    IndexJs.handlePurchaseConfirm s userId (some sess) inv now nowKey
      = { state := s, outcome := IndexJs.PurchaseOutcomeA.stockMsg,
          providerCalled := false } := by
  simp [IndexJs.handlePurchaseConfirm, hprod, hstock]

/-- Witness for `c6_amended`: ordering 5 units of a single-item product is
rejected before the provider is contacted. -/
theorem c6_amended_witness :
    IndexJs.handlePurchaseConfirm c6state "u6"
        (some { productKey := "sku6", qty := 5 }) IndexJs.FetchA.netErr 0
        "TRX0"
      = { state := c6state, outcome := IndexJs.PurchaseOutcomeA.stockMsg,
          providerCalled := false } :=
  c6_amended c6state "u6" { productKey := "sku6", qty := 5 } c6prod
    IndexJs.FetchA.netErr 0 "TRX0" (by decide) (by decide)

/-! ### Claim C7 — failed invoice creation persists nothing -/

/-- Claim C7 is false as stated for the `src/index.js` flow: `createInvoice`
never inspects the HTTP status code, so a *non-2xx* response whose JSON
body still carries a truthy `status` (here `FetchA.httpResp false …`) is
treated as success and a pending payment *is* persisted under the reported
trx id. -/
theorem c7_counterexample :
    (IndexJs.handlePurchaseConfirm c7state "u9"
        (some { productKey := "sku7", qty := 1 })
        (IndexJs.FetchA.httpResp false (some c7body)) 42 "TRXF").outcome
      = IndexJs.PurchaseOutcomeA.created "T9" ∧
    ((IndexJs.handlePurchaseConfirm c7state "u9"
        (some { productKey := "sku7", qty := 1 })
        (IndexJs.FetchA.httpResp false (some c7body)) 42
        "TRXF").state.pending "T9").isSome = true := by
  decide

/-- Claim C7 (amended): whenever invoice creation fails *as the code
detects it* — for `src/index.js`: network error, unparsable body, or a
body with a falsy `status`; for the deposit flow additionally a non-2xx
HTTP status, a `status ≠ success`, or missing `data`/QR url/transaction
id — no pending payment is persisted: the purchase handler returns the
state unchanged and `createQrisAndConfirm` lands in its catch branch with
the state unchanged. -/
theorem c7_amended (s : IndexJs.StateA) (userId : String)
    (sess : Option IndexJs.SessionA) (inv : IndexJs.FetchA) (now : Nat)
    (nowKey : String) (h1 : IndexJs.invoiceCreateFails inv = true)
    (sB : DepositBot.StateB) (uidB : String) (nominal randomAdd nowB : Nat)
    (f : DepositBot.QrisFetchB)
    (h2 : DepositBot.qrisCreateFails f = true) :
    (IndexJs.handlePurchaseConfirm s userId sess inv now nowKey).state = s ∧
    DepositBot.createQrisAndConfirm sB uidB nominal randomAdd f nowB
      = (sB, DepositBot.CreateOutcome.errorMsg) := by
  constructor
  · cases sess with
    | none => rfl
    | some se =>
      cases hacc : s.accounts se.productKey with
      | none => simp [IndexJs.handlePurchaseConfirm, hacc]
      | some prod =>
        by_cases hst : prod.listA.length < (if se.qty = 0 then 1 else se.qty)
        · simp [IndexJs.handlePurchaseConfirm, hacc, hst]
        · cases hinv : IndexJs.createInvoice inv with
          | none => simp [IndexJs.handlePurchaseConfirm, hacc, hst, hinv]
          | some b =>
            have hb : b.status.truthy = false := by
              have h3 := h1
              simp only [IndexJs.invoiceCreateFails, hinv] at h3
              simpa using h3
            simp [IndexJs.handlePurchaseConfirm, hacc, hst, hinv, hb]
  · cases f with
    | netErr => rfl
    | httpResp ok body =>
      cases ok with
      | false => simp [DepositBot.createQrisAndConfirm]
      | true =>
        cases body with
        | none => simp [DepositBot.createQrisAndConfirm]
        | some resp =>
          by_cases hcs : resp.cstatus = "success"
          · cases hcd : resp.cdata with
            | none => simp [DepositBot.createQrisAndConfirm, hcs, hcd]
            | some d =>
              cases hqu : d.qrisUrl with
              | none =>
                simp [DepositBot.createQrisAndConfirm, hcs, hcd, hqu]
              | some u0 =>
                cases htd : d.transactionId with
                | none =>
                  simp [DepositBot.createQrisAndConfirm, hcs, hcd, hqu, htd]
                | some t0 =>
                  exfalso
                  simp [DepositBot.qrisCreateFails, hcs, hcd, hqu, htd] at h2
          · simp [DepositBot.createQrisAndConfirm, hcs]

/-- Witness for `c7_amended`: a network error on either flow leaves the
empty states untouched. -/
theorem c7_amended_witness :
    (IndexJs.handlePurchaseConfirm emptyStateA "u0" none IndexJs.FetchA.netErr
        0 "K").state = emptyStateA ∧
    DepositBot.createQrisAndConfirm emptyStateB "u0" 5000 10
        DepositBot.QrisFetchB.netErr 0
      = (emptyStateB, DepositBot.CreateOutcome.errorMsg) :=
  c7_amended emptyStateA "u0" none IndexJs.FetchA.netErr 0 "K" (by decide)
    emptyStateB "u0" 5000 10 0 DepositBot.QrisFetchB.netErr (by decide)

/-! ### Claim C8 — cancel semantics -/

/-- Claim C8 is false as stated for the `src/index.js` flow: a fulfilled
payment is archived with status `paid` (never removed), and the owner can
then "cancel" it — `handleCancelPayment` returns the *success* outcome and
deletes the record instead of returning a defined error. -/
theorem c8_counterexample :
    (c8state.pending "T5").map IndexJs.PendingA.status = some "paid" ∧
    (IndexJs.handleCancelPayment c8state "u8" "adminX" "T5").2
        = IndexJs.CancelOutcomeA.cancelled ∧
    (IndexJs.handleCancelPayment c8state "u8" "adminX" "T5").1.pending "T5"
        = none := by
  decide

/-- Claim C8 (amended): cancel never mutates balances, inventory or
transaction history in either flow; cancelling when no record exists (the
already-cancelled / already-swept case) returns the defined not-found
error; and a successful owner cancel only removes the pending record.
(A fulfilled record of the `src/index.js` flow however remains stored with
status `paid` and its cancel succeeds — see the counterexample.) -/
theorem c8_amended (s : IndexJs.StateA) (userId adminId trxid : String)
    (sB : DepositBot.StateB) (uidB : String) :
    (IndexJs.handleCancelPayment s userId adminId trxid).1.accounts
        = s.accounts ∧
    (IndexJs.handleCancelPayment s userId adminId trxid).1.transactions
        = s.transactions ∧
    (s.pending trxid = none →
      IndexJs.handleCancelPayment s userId adminId trxid
        = (s, IndexJs.CancelOutcomeA.notFound)) ∧
    (∀ p : IndexJs.PendingA, s.pending trxid = some p → p.userId = userId →
      IndexJs.handleCancelPayment s userId adminId trxid
        = ({ s with pending := setKey s.pending trxid none },
           IndexJs.CancelOutcomeA.cancelled)) ∧
    (DepositBot.handleCancelPayment sB uidB).1.users = sB.users ∧
    (DepositBot.handleCancelPayment sB uidB).1.transactionsB
        = sB.transactionsB ∧
    (sB.pendingB uidB = none →
      DepositBot.handleCancelPayment sB uidB
        = (sB, DepositBot.CancelOutcomeB.noPending)) := by
  refine ⟨?_, ?_, ?_, ?_, ?_, ?_, ?_⟩
  · cases hp : s.pending trxid with
    | none => simp [IndexJs.handleCancelPayment, hp]
    | some p =>
      simp only [IndexJs.handleCancelPayment, hp]
      split <;> rfl
  · cases hp : s.pending trxid with
    | none => simp [IndexJs.handleCancelPayment, hp]
    | some p =>
      simp only [IndexJs.handleCancelPayment, hp]
      split <;> rfl
  · intro hp
    simp [IndexJs.handleCancelPayment, hp]
  · intro p hp howner
    have hno : ¬ (p.userId ≠ userId ∧ userId ≠ adminId) := by
      intro hcon
      exact hcon.1 howner
    simp only [IndexJs.handleCancelPayment, hp]
    rw [if_neg hno]
  · cases hp : sB.pendingB uidB with
    | none => simp [DepositBot.handleCancelPayment, hp]
    | some p => simp [DepositBot.handleCancelPayment, hp]
  · cases hp : sB.pendingB uidB with
    | none => simp [DepositBot.handleCancelPayment, hp]
    | some p => simp [DepositBot.handleCancelPayment, hp]
  · intro hp
    simp [DepositBot.handleCancelPayment, hp]

/-- Witness for `c8_amended`: cancelling a non-existent payment on the
empty state yields the defined not-found error. -/
theorem c8_amended_witness :
    IndexJs.handleCancelPayment emptyStateA "u0" "adm" "TX"
      = (emptyStateA, IndexJs.CancelOutcomeA.notFound) :=
  ((c8_amended emptyStateA "u0" "adm" "TX" emptyStateB "u0").2.2.1) rfl

/-! ### Claim C9 — capped transaction history -/

/-- The capping step `if l.length > cap then l.slice(-cap) else l` always
equals the suffix of the most recent `min l.length cap` entries. -/
theorem capDrop {α : Type} (l : List α) (cap : Nat) :
    (if l.length > cap then l.drop (l.length - cap) else l)
      = l.drop (l.length - cap) := by
  split
  · rfl
  · have hz : l.length - cap = 0 := by omega
    rw [hz, List.drop_zero]

/-- The capping step never leaves more than `cap` entries. -/
theorem capLen {α : Type} (l : List α) (cap : Nat) :
    (if l.length > cap then l.drop (l.length - cap) else l).length ≤ cap := by
  split
  · simp only [List.length_drop]
    omega
  · omega

/-- Claim C9: both `addTransaction` implementations keep every user's
history at or below their configured cap (50 in the deposit flow, 100 in
the store flow — both within the spec's 50–200 range), and what survives
is exactly the suffix of most recent entries of the pushed history, so the
oldest entries beyond the cap are silently dropped. -/
theorem c9_theorem (txsB : String → List DepositBot.TxnB) (uidB : String)
    (tB : DepositBot.TxnB) (txsC : String → List StoreBot.TxnC)
    (uidC : String) (tC : StoreBot.TxnC) :
    (DepositBot.addTransaction txsB uidB tB uidB).length ≤ 50 ∧
    DepositBot.addTransaction txsB uidB tB uidB
      = (txsB uidB ++ [tB]).drop ((txsB uidB).length + 1 - 50) ∧
    (StoreBot.addTransaction txsC uidC tC uidC).length ≤ 100 ∧
    StoreBot.addTransaction txsC uidC tC uidC
      = (txsC uidC ++ [tC]).drop ((txsC uidC).length + 1 - 100) := by
  refine ⟨?_, ?_, ?_, ?_⟩
  · simp only [DepositBot.addTransaction, setList_self]
    exact capLen _ 50
  · simp only [DepositBot.addTransaction, setList_self]
    rw [capDrop]
    simp
  · simp only [StoreBot.addTransaction, setList_self]
    exact capLen _ 100
  · simp only [StoreBot.addTransaction, setList_self]
    rw [capDrop]
    simp

/-! ### Claim C10 — total, throw-free store adapters -/

/-- Claim C10: the store adapters are total by construction in this
embedding, and on every underlying failure the loads return the empty
object while the saves return `false`; a failed load is literally the same
value as a successful load of absent data, so the two are
indistinguishable to callers. -/
theorem c10_theorem :
    IndexJs.loadKV IndexJs.KVGetResult.failure = IndexJs.KVValue.emptyObj ∧
    IndexJs.loadKV IndexJs.KVGetResult.missing = IndexJs.KVValue.emptyObj ∧
    IndexJs.loadKV IndexJs.KVGetResult.failure
        = IndexJs.loadKV IndexJs.KVGetResult.missing ∧
    IndexJs.saveKV IndexJs.KVPutResult.failure = false ∧
    IndexJs.saveKV IndexJs.KVPutResult.ok = true ∧
    DepositBot.loadDB DepositBot.DBGetResult.failure
        = DepositBot.DBValue.emptyObj ∧
    DepositBot.loadDB DepositBot.DBGetResult.missing
        = DepositBot.DBValue.emptyObj ∧
    DepositBot.loadDB (DepositBot.DBGetResult.rawParsed none)
        = DepositBot.DBValue.emptyObj ∧
    DepositBot.saveDB DepositBot.DBPutResult.failure = false ∧
    DepositBot.saveDB DepositBot.DBPutResult.ok = true := by
  decide
